import Mathlib

/-!
Verification development for the night-storage-heater control script of the
repository MarAlze/Shelly-Smart-Night-Heater.

The repository file `script.js` contains two versions of the script:
version 4.2 (lines 1–220 of the concatenated file) and version 5.0
(lines 221–497).  The definitions below are shallow embeddings of the
JavaScript functions; each definition's comment names the function and the
line range it embeds.  JavaScript numbers are idealized as rationals (for
temperatures and hour values) and as integers (for seconds-of-day and
durations, which the script keeps integral); the JavaScript remainder
operator and `Math.round` are embedded exactly (`jsRem`, `jsRound`).
Outbound Shelly RPCs (`Schedule.List`, `Schedule.DeleteAll`,
`Schedule.Create`) and Telegram notifications are modelled as an explicit
trace of calls (`SCall`); the boolean parameters `listOk`, `deleteOk` and
the function `createOk` give the outcome each callback observes, so that
the trace records exactly which calls the script issues for every
combination of outcomes.
-/

/-- The JavaScript remainder `a % b` (truncated division, result takes the
sign of the dividend), used by `scheduleCharging` in the expression
`(windowEndSeconds - nextChargingDurationSeconds + 24 * 3600) % (24 * 3600)`. -/
def jsRem (a b : Int) : Int := Int.tmod a b

/-- JavaScript `Math.round` on an idealized rational input: rounds to the
nearest integer, halves toward positive infinity. -/
def jsRound (q : ℚ) : Int := ⌊q + 1 / 2⌋

/-- `timeToSeconds` (v5.0 lines 283–286): converts an "HH:MM" time-of-day,
given here by its hour and minute fields, to seconds of day. -/
def timeToSeconds (h m : Nat) : Nat := h * 3600 + m * 60

/-- One outbound call issued by `scheduleCharging`.  `notify tag` is a
`sendTelegramNotification` call, with `tag` identifying the call site:
0 = list failure, 1 = schedule list report, 2 = delete failure,
3 = "no charging required" report, 4 = per-switch success report,
5 = per-switch creation failure (v5.0), 6 = per-switch creation failure
(v4.2). -/
inductive SCall where
  | scheduleList : SCall
  | deleteAll (id : Option Nat) : SCall
  | create (switchId : Nat) (startSeconds toggleAfter : Int) : SCall
  | notify (tag : Nat) : SCall
  deriving DecidableEq

/-- Is a call a `Schedule.Create` request? -/
def isCreate : SCall → Bool
  | SCall.create _ _ _ => true
  | _ => false

/-- The window span computation of `scheduleCharging` (v4.2 lines 146–152):
`(24*3600 - windowStartSeconds) + windowEndSeconds` for an overnight window
(`windowStartSeconds > windowEndSeconds`), else
`windowEndSeconds - windowStartSeconds`. -/
def windowSpan (windowStart windowEnd : Nat) : Int :=
  if windowStart > windowEnd then (86400 - (windowStart : Int)) + windowEnd
  else (windowEnd : Int) - windowStart

/-- The pure core of version 4.2's `scheduleCharging` (lines 141–176):
span computation, cap of the duration to the span, backward start
computation, and the sanity check that clamps to the window start when the
computed start lies outside the window.  Returns (start, duration). -/
def computeSchedule_v4 (windowStart windowEnd : Nat) (dur0 : Int) : Int × Int :=
  let ws : Int := windowStart
  let we : Int := windowEnd
  let windowDuration : Int := windowSpan windowStart windowEnd
  let dur : Int := if dur0 > windowDuration then windowDuration else dur0
  let start : Int := jsRem (we - dur + 86400) 86400
  let startIsInWindow : Bool :=
    if ws > we then decide (start ≥ ws) || decide (start < we)
    else decide (start ≥ ws) && decide (start < we)
  if !startIsInWindow && decide (windowDuration > 0) then (ws, windowDuration)
  else (start, dur)

/-- The calls issued by version 4.2's `scheduleCharging` (lines 141–203):
in test mode it returns after logging; otherwise, for each configured
switch it issues `Schedule.DeleteAll` with that switch id and, when the
(possibly clamped) duration is positive, a `Schedule.Create`, whose
callback notifies on failure. -/
def scheduleCharging_v4 (testMode : Bool) (switchIds : List Nat)
    (windowStart windowEnd : Nat) (dur0 : Int) (createOk : Nat → Bool) :
    List SCall :=
  let sd := computeSchedule_v4 windowStart windowEnd dur0
  if testMode then []
  else
    switchIds.flatMap (fun id =>
      SCall.deleteAll (some id) ::
      if sd.2 > 0 then
        SCall.create id sd.1 sd.2 ::
        (if createOk id then [] else [SCall.notify 6])
      else [])

/-- The calls issued by version 5.0's `scheduleCharging` (lines 353–440):
test mode returns immediately; otherwise `Schedule.List` is issued; on list
failure the cycle aborts with a notification; otherwise (optionally
reporting the list) `Schedule.DeleteAll` is issued; on delete failure the
cycle aborts with a notification; a non-positive duration ends the cycle
with an optional report and no creation; otherwise the backward start
`(windowEnd - duration + 86400) % 86400` is computed and one
`Schedule.Create` is issued per configured switch, each callback reporting
success (optionally) or failure independently.  Version 5.0 reads only
`CHARGING_WINDOW_END`; it performs no window-span computation and no
clamping. -/
def scheduleCharging_v5 (testMode sendList sendNew : Bool)
    (switchIds : List Nat) (windowEnd : Nat) (dur : Int)
    (listOk deleteOk : Bool) (createOk : Nat → Bool) : List SCall :=
  if testMode then []
  else
    SCall.scheduleList ::
    if !listOk then [SCall.notify 0]
    else
      (if sendList then [SCall.notify 1] else []) ++
      SCall.deleteAll none ::
      if !deleteOk then [SCall.notify 2]
      else if dur ≤ 0 then (if sendNew then [SCall.notify 3] else [])
      else
        let start := jsRem ((windowEnd : Int) - dur + 86400) 86400
        switchIds.flatMap (fun id =>
          SCall.create id start dur ::
          (if createOk id then (if sendNew then [SCall.notify 4] else [])
           else [SCall.notify 5]))

/-- `calculateChargingDuration` (v5.0 lines 332–339, identically v4.2
lines 115–123), the forecast duration calculator: hours =
`(avgTemp < START_TEMP) ? (START_TEMP - avgTemp) * SLOPE : 0`, then capped
at `MAX_RUNTIME_HOURS`, then floored at 0.  Returns the hour value; the
script converts it to seconds with `Math.round(hours * 3600)`. -/
def calculateChargingDuration (startTemp slope maxRuntimeHours avgTemp : ℚ) : ℚ :=
  let hours : ℚ := if avgTemp < startTemp then (startTemp - avgTemp) * slope else 0
  let hours : ℚ := if hours > maxRuntimeHours then maxRuntimeHours else hours
  let hours : ℚ := if hours < 0 then 0 else hours
  hours

/-- `calculateFallbackDuration` (v5.0 lines 341–351, identically v4.2
lines 125–135), the seasonal fallback selection: month ≤ 3 gives Q1,
month ≤ 6 gives Q2, month ≤ 9 gives Q3, otherwise Q4. -/
def calculateFallbackDuration (q1 q2 q3 q4 : ℚ) (month : Nat) : ℚ :=
  if month ≤ 3 then q1 else if month ≤ 6 then q2
  else if month ≤ 9 then q3 else q4

/-- The replacement `s.split(c).join(esc)` used by `urlEncode`: every
occurrence of the character `c` is replaced by the escape sequence `esc`. -/
def splitJoin (c : Char) (esc : List Char) (s : List Char) : List Char :=
  s.flatMap (fun x => if x = c then esc else [x])

/-- `urlEncode` of version 5.0 (lines 273–281): percent-encodes space,
colon, period, comma and newline, in that order. -/
def urlEncode (s : List Char) : List Char :=
  let s := splitJoin ' ' ['%', '2', '0'] s
  let s := splitJoin ':' ['%', '3', 'A'] s
  let s := splitJoin '.' ['%', '2', 'E'] s
  let s := splitJoin ',' ['%', '2', 'C'] s
  let s := splitJoin '\n' ['%', '0', 'A'] s
  s

/-- The text `sendTelegramNotification` (v5.0 lines 301–308) embeds into
the `text` query parameter of the notification URL:
`urlEncode("Shelly Heater: " + message)`. -/
def telegramText (message : List Char) : List Char :=
  urlEncode ("Shelly Heater: ".toList ++ message)

/-- One tick of `dailyCheck` (v5.0 lines 443–466).  The source compares the
device's "HH:MM" time string with `CONFIG.DATA_FETCH_TIME` and with
"00:01"; well-formed "HH:MM" strings are in bijection with minutes of day
(h*60+m), under which string equality is equality of minutes, so ticks are
modelled by their minute of day (0–1439); "00:01" is minute 1.  Given the
`hasRunToday` flag and the tick's minute, returns the new flag and whether
the decision cycle was started on this tick. -/
def dailyCheck (fetchMinute : Nat) (hasRunToday : Bool) (tick : Nat) :
    Bool × Bool :=
  let runCycle : Bool := decide (tick = fetchMinute) && !hasRunToday
  let flag1 : Bool := if runCycle then true else hasRunToday
  let flag2 : Bool := if tick = 1 then false else flag1
  (flag2, runCycle)

/-- Folding `dailyCheck` over a list of tick minutes: returns the final
`hasRunToday` flag and how many ticks started a decision cycle. -/
def runTicks (fetchMinute : Nat) (s : Bool) : List Nat → Bool × Nat
  | [] => (s, 0)
  | t :: ts =>
    let step := dailyCheck fetchMinute s t
    let rest := runTicks fetchMinute step.1 ts
    (rest.1, (if step.2 then 1 else 0) + rest.2)

/-- One production calendar day: the per-minute ticks 00:00, 00:01, …,
23:59 (`Timer.set(60000, true, dailyCheck)`, v5.0 line 483). -/
def runDay (fetchMinute : Nat) (s : Bool) : Bool × Nat :=
  runTicks fetchMinute s (List.range 1440)

/-- The forecast HTTP response as `getWeatherAndCalculateDuration` sees it:
the status code, and the parse of the body — `some series` is
`data.hourly.temperature_2m` as a list of temperatures, `none` means
`JSON.parse` threw or the field is absent. -/
structure HttpRes where
  code : Int
  bodyTemps : Option (List ℚ)

/-- Which calculator the decision cycle uses for the duration. -/
inductive DurationSource where
  | forecast (avgTemp : ℚ)
  | fallback
  deriving DecidableEq

/-- `getWeatherAndCalculateDuration` (v5.0 lines 310–330, identically
v4.2 lines 94–113): on transport failure (`err_code !== 0`, missing
response, or status other than 200) or malformed data (unparseable body,
or fewer than 24 samples in `temperature_2m.slice(24, 48)`), a failure
notification is sent and the fallback path is taken; otherwise the
forecast path is taken with the average of tomorrow's 24 temperatures.
Returns the path and whether a failure notification was sent. -/
def weatherDecision (errCode : Int) (res : Option HttpRes) :
    DurationSource × Bool :=
  if errCode ≠ 0 then (DurationSource.fallback, true)
  else
    match res with
    | none => (DurationSource.fallback, true)
    | some r =>
      if r.code ≠ 200 then (DurationSource.fallback, true)
      else
        match r.bodyTemps with
        | none => (DurationSource.fallback, true)
        | some series =>
          let temps := (series.drop 24).take 24
          if temps.length < 24 then (DurationSource.fallback, true)
          else (DurationSource.forecast (temps.sum / (temps.length : ℚ)), false)

/-- The duration in seconds the cycle computes on each path:
`Math.round(hours * 3600)` of the forecast hours
(`calculateChargingDuration`, line 337) or of the fallback hours
(`calculateFallbackDuration`, line 347). -/
def cycleDuration (startTemp slope maxH q1 q2 q3 q4 : ℚ) (month : Nat) :
    DurationSource → Int
  | DurationSource.forecast avg =>
      jsRound (calculateChargingDuration startTemp slope maxH avg * 3600)
  | DurationSource.fallback =>
      jsRound (calculateFallbackDuration q1 q2 q3 q4 month * 3600)

/-- One full version 5.0 decision cycle: weather fetch outcome → duration
calculation (forecast or fallback, `month` coming from `Sys.GetStatus`) →
`scheduleCharging`.  Returns the taken path with its notification flag,
the duration in seconds, and the trace of reconciler calls. -/
def decisionCycle (startTemp slope maxH q1 q2 q3 q4 : ℚ) (month : Nat)
    (errCode : Int) (res : Option HttpRes)
    (testMode sendList sendNew : Bool) (switchIds : List Nat)
    (windowEnd : Nat) (listOk deleteOk : Bool) (createOk : Nat → Bool) :
    (DurationSource × Bool) × Int × List SCall :=
  let wd := weatherDecision errCode res
  let dur := cycleDuration startTemp slope maxH q1 q2 q3 q4 month wd.1
  (wd, dur,
    scheduleCharging_v5 testMode sendList sendNew switchIds windowEnd dur
      listOk deleteOk createOk)

/-- `jsRem` agrees with the mathematical remainder on nonnegative
dividends and positive divisors. -/
theorem jsRem_eq_emod (a b : Int) (ha : 0 ≤ a) (hb : 0 ≤ b) :
    jsRem a b = a % b :=
  Int.tmod_eq_emod ha hb

/-- The window span is at most one day when both endpoints are
seconds-of-day values. -/
theorem windowSpan_le (windowStart windowEnd : Nat)
    (hws : windowStart < 86400) (hwe : windowEnd < 86400) :
    windowSpan windowStart windowEnd ≤ 86400 := by
  unfold windowSpan
  split <;> omega

/-- C1: the claim says a required duration of 0 schedules no action for any
positive-span window.  Version 5.0 (lines 388–397) behaves this way, but
version 4.2's scheduler (lines 141–203) does not: with duration 0 the
candidate start equals the window end, which its in-window test rejects,
so the sanity clamp (lines 170–174) resets the start to the window start
and the duration to the whole span, and production mode then creates a
full-window action per switch.  Evaluated here at the wrapping window
22:00–06:00 and the non-wrapping window 01:00–05:00. -/
theorem v4_zero_duration_schedules_full_window :
    computeSchedule_v4 79200 21600 0 = (79200, 28800) ∧
    SCall.create 0 79200 28800 ∈
      scheduleCharging_v4 false [0] 79200 21600 0 (fun _ => true) ∧
    computeSchedule_v4 3600 18000 0 = (3600, 14400) :=
  ⟨by decide, by decide, by decide⟩

/-- Version 5.0's scheduler with a zero (or negative) required duration
issues no `Schedule.Create` call for any switch, for every window and
every outcome of the list and delete steps. -/
theorem scheduleCharging_v5_zero_no_create (sendList sendNew : Bool)
    (switchIds : List Nat) (windowEnd : Nat) (dur : Int) (hdur : dur ≤ 0)
    (listOk deleteOk : Bool) (createOk : Nat → Bool) :
    (scheduleCharging_v5 false sendList sendNew switchIds windowEnd dur
        listOk deleteOk createOk).filter isCreate = [] := by
  unfold scheduleCharging_v5
  cases listOk <;> cases deleteOk <;> cases sendList <;> cases sendNew <;>
    simp [isCreate, hdur, List.filter_append]

/-- C2: the claim says the scheduler clamps a required duration exceeding
the window span down to the span (for 22:00–06:00 and 10 h: final duration
8 h, start 22:00).  Version 4.2 (lines 146–158) does exactly that, but
version 5.0's scheduler (lines 399–400) computes the start directly from
the window end without ever reading the window start or the span: at
duration 36000 s it schedules a 36000 s action starting at 72000 s
(20:00), two hours before the 22:00 window opens. -/
theorem v5_missing_window_span_clamp :
    SCall.create 0 72000 36000 ∈
      scheduleCharging_v5 false false false [0] 21600 36000 true true
        (fun _ => true) ∧
    computeSchedule_v4 79200 21600 36000 = (79200, 28800) :=
  ⟨by decide, by decide⟩

/-- C10: with the test-mode flag set, `scheduleCharging` returns before
issuing any `Schedule.List`, `Schedule.DeleteAll` or `Schedule.Create`
call (version 5.0 lines 354–357, version 4.2 lines 179–186): the trace of
outbound calls is empty, so the device's stored schedules are untouched. -/
theorem testMode_no_schedule_calls (sendList sendNew : Bool)
    (switchIds : List Nat) (windowStart windowEnd : Nat) (dur : Int)
    (listOk deleteOk : Bool) (createOk : Nat → Bool) :
    scheduleCharging_v5 true sendList sendNew switchIds windowEnd dur
        listOk deleteOk createOk = [] ∧
    scheduleCharging_v4 true switchIds windowStart windowEnd dur createOk
        = [] :=
  ⟨rfl, rfl⟩

/-- C6: the forecast duration calculator returns 0 hours when the average
temperature is at least `START_TEMP`; for a colder average (and the
configured nonnegative `SLOPE` and `MAX_RUNTIME_HOURS`) it returns
`min MAX_RUNTIME_HOURS ((START_TEMP - avgTemp) * SLOPE)`; and its result
is never negative. -/
theorem forecast_duration_heating_curve
    (startTemp slope maxRuntimeHours avgTemp : ℚ) :
    (startTemp ≤ avgTemp →
      calculateChargingDuration startTemp slope maxRuntimeHours avgTemp = 0) ∧
    (0 ≤ slope → 0 ≤ maxRuntimeHours → avgTemp < startTemp →
      calculateChargingDuration startTemp slope maxRuntimeHours avgTemp =
        min maxRuntimeHours ((startTemp - avgTemp) * slope)) ∧
    0 ≤ calculateChargingDuration startTemp slope maxRuntimeHours avgTemp := by
  simp only [calculateChargingDuration]
  refine ⟨fun hge => ?_, fun hslope hmax hlt => ?_, ?_⟩
  · rw [if_neg (not_lt.2 hge)]
    split_ifs <;> linarith
  · rw [if_pos hlt, min_def]
    have hprod : 0 ≤ (startTemp - avgTemp) * slope :=
      mul_nonneg (by linarith) hslope
    split_ifs <;> linarith
  · split_ifs <;> linarith

/-- C6 witness: at the shipped configuration (START_TEMP 15, SLOPE 0.5,
MAX_RUNTIME_HOURS 8) and average 5 °C the calculator returns
min 8 ((15 - 5) * 0.5) = 5 hours. -/
theorem forecast_duration_heating_curve_witness :
    (0 : ℚ) ≤ 1 / 2 ∧ (0 : ℚ) ≤ 8 ∧ (5 : ℚ) < 15 ∧
    calculateChargingDuration 15 (1 / 2) 8 5 = min 8 ((15 - 5) * (1 / 2)) :=
  ⟨by norm_num, by norm_num, by norm_num,
    (forecast_duration_heating_curve 15 (1 / 2) 8 5).2.1 (by norm_num)
      (by norm_num) (by norm_num)⟩

/-- C7: for every month 1–12 the fallback calculator returns exactly one of
the four quarterly constants, with the month ranges 1–3, 4–6, 7–9, 10–12
partitioning the year with no gaps or overlaps. -/
theorem fallback_quarter_partition (q1 q2 q3 q4 : ℚ) (month : Nat)
    (h1 : 1 ≤ month) (h12 : month ≤ 12) :
    (1 ≤ month ∧ month ≤ 3 ∧
      calculateFallbackDuration q1 q2 q3 q4 month = q1) ∨
    (4 ≤ month ∧ month ≤ 6 ∧
      calculateFallbackDuration q1 q2 q3 q4 month = q2) ∨
    (7 ≤ month ∧ month ≤ 9 ∧
      calculateFallbackDuration q1 q2 q3 q4 month = q3) ∨
    (10 ≤ month ∧ month ≤ 12 ∧
      calculateFallbackDuration q1 q2 q3 q4 month = q4) := by
  unfold calculateFallbackDuration
  split_ifs with h3 h6 h9
  · exact Or.inl ⟨h1, h3, rfl⟩
  · exact Or.inr (Or.inl ⟨by omega, h6, rfl⟩)
  · exact Or.inr (Or.inr (Or.inl ⟨by omega, h9, rfl⟩))
  · exact Or.inr (Or.inr (Or.inr ⟨by omega, h12, rfl⟩))

/-- C7 witness: at the shipped fallback constants (6, 2, 0, 5) and month 5
(May, second quarter) the calculator picks Q2 = 2. -/
theorem fallback_quarter_partition_witness :
    1 ≤ 5 ∧ 5 ≤ 12 ∧
    ((1 ≤ 5 ∧ 5 ≤ 3 ∧ calculateFallbackDuration 6 2 0 5 5 = 6) ∨
     (4 ≤ 5 ∧ 5 ≤ 6 ∧ calculateFallbackDuration 6 2 0 5 5 = 2) ∨
     (7 ≤ 5 ∧ 5 ≤ 9 ∧ calculateFallbackDuration 6 2 0 5 5 = 0) ∨
     (10 ≤ 5 ∧ 5 ≤ 12 ∧ calculateFallbackDuration 6 2 0 5 5 = 5)) :=
  ⟨by norm_num, by norm_num,
    fallback_quarter_partition 6 2 0 5 5 (by norm_num) (by norm_num)⟩

/-- Mapping each element to a one-element list and flattening is `map`. -/
theorem flatMap_one {α β : Type} (f : α → β) :
    ∀ l : List α, (l.flatMap fun a => [f a]) = l.map f
  | [] => rfl
  | x :: xs => by simp [flatMap_one f xs]

/-- The per-switch tail of version 5.0's creation fan-out (the callback's
notifications) contains no creation request, whatever the outcome and the
notification flag. -/
theorem filter_isCreate_tail (b sn : Bool) :
    (if b then (if sn then [SCall.notify 4] else [])
     else [SCall.notify 5]).filter isCreate = [] := by
  cases b <;> cases sn <;> rfl

/-- The creation requests issued by version 5.0's `scheduleCharging`:
none unless the list step succeeded, the delete step succeeded and the
duration is positive, and in that case exactly one per configured switch
at the backward start — independent of the per-switch creation outcomes
`createOk`. -/
theorem filter_isCreate_scheduleCharging_v5 (sendList sendNew : Bool)
    (switchIds : List Nat) (windowEnd : Nat) (dur : Int)
    (listOk deleteOk : Bool) (createOk : Nat → Bool) :
    (scheduleCharging_v5 false sendList sendNew switchIds windowEnd dur
        listOk deleteOk createOk).filter isCreate =
      if listOk = true ∧ deleteOk = true ∧ 0 < dur then
        switchIds.map (fun id =>
          SCall.create id (jsRem ((windowEnd : Int) - dur + 86400) 86400) dur)
      else [] := by
  cases listOk
  · simp [scheduleCharging_v5, isCreate]
  · cases deleteOk
    · cases sendList <;> simp [scheduleCharging_v5, isCreate, List.filter_append]
    · rcases le_or_lt dur 0 with hle | hpos
      · have h2 : ¬ (0 : Int) < dur := not_lt.2 hle
        cases sendList <;> cases sendNew <;>
          simp [scheduleCharging_v5, isCreate, List.filter_append, hle, h2]
      · have hne : ¬ dur ≤ 0 := not_le.2 hpos
        cases sendList <;>
          simp [scheduleCharging_v5, isCreate, List.filter_append,
            List.filter_flatMap, filter_isCreate_tail, hne, hpos, flatMap_one]

/-- With a successful list and delete step and a positive duration,
version 5.0 issues a `Schedule.Create` for every configured switch at the
backward start, whatever the per-switch outcomes. -/
theorem create_mem_scheduleCharging_v5 (sendList sendNew : Bool)
    (switchIds : List Nat) (windowEnd : Nat) (dur : Int)
    (createOk : Nat → Bool) (hdur : 0 < dur) (id : Nat)
    (hid : id ∈ switchIds) :
    SCall.create id (jsRem ((windowEnd : Int) - dur + 86400) 86400) dur ∈
      scheduleCharging_v5 false sendList sendNew switchIds windowEnd dur
        true true createOk := by
  have hne : ¬ dur ≤ 0 := not_le.2 hdur
  simp [scheduleCharging_v5, hne, List.mem_flatMap]
  exact ⟨id, hid, Or.inl rfl⟩

/-- In the schedule reconciler of version 5.0 (lines 360–437), a failure
of the `Schedule.List` step or of the `Schedule.DeleteAll` step aborts the
cycle with a notification and no creation request for any switch, while
the set of creation requests issued after a successful delete is the same
for every combination of per-switch creation outcomes — so one switch's
creation failure cannot prevent the attempts for the other switches, each
of which receives its own `Schedule.Create`. -/
theorem reconciler_failure_isolation (sendList sendNew : Bool)
    (switchIds : List Nat) (windowEnd : Nat) (dur : Int)
    (createOk createOk2 : Nat → Bool) :
    (∀ deleteOk : Bool,
      (scheduleCharging_v5 false sendList sendNew switchIds windowEnd dur
          false deleteOk createOk).filter isCreate = [] ∧
      SCall.notify 0 ∈ scheduleCharging_v5 false sendList sendNew switchIds
          windowEnd dur false deleteOk createOk) ∧
    ((scheduleCharging_v5 false sendList sendNew switchIds windowEnd dur
        true false createOk).filter isCreate = [] ∧
      SCall.notify 2 ∈ scheduleCharging_v5 false sendList sendNew switchIds
          windowEnd dur true false createOk) ∧
    ((scheduleCharging_v5 false sendList sendNew switchIds windowEnd dur
        true true createOk).filter isCreate =
      (scheduleCharging_v5 false sendList sendNew switchIds windowEnd dur
        true true createOk2).filter isCreate) ∧
    (0 < dur → ∀ id ∈ switchIds,
      SCall.create id (jsRem ((windowEnd : Int) - dur + 86400) 86400) dur ∈
        scheduleCharging_v5 false sendList sendNew switchIds windowEnd dur
          true true createOk) := by
  refine ⟨fun deleteOk => ⟨?_, ?_⟩, ⟨?_, ?_⟩, ?_, fun hdur id hid => ?_⟩
  · simpa using filter_isCreate_scheduleCharging_v5 sendList sendNew switchIds
      windowEnd dur false deleteOk createOk
  · simp [scheduleCharging_v5]
  · simpa using filter_isCreate_scheduleCharging_v5 sendList sendNew switchIds
      windowEnd dur true false createOk
  · cases sendList <;> simp [scheduleCharging_v5]
  · rw [filter_isCreate_scheduleCharging_v5, filter_isCreate_scheduleCharging_v5]
  · exact create_mem_scheduleCharging_v5 sendList sendNew switchIds windowEnd
      dur createOk hdur id hid

/-- Instance of the version 5.0 reconciler isolation property: with
switches 0 and 1, window end 06:00 and duration
18000 s, a delete failure yields no creation request, and with list and
delete succeeding but switch 1's creation failing, switch 0's creation is
still attempted. -/
theorem reconciler_failure_isolation_witness :
    (0 : Int) < 18000 ∧ (0 : Nat) ∈ [0, 1] ∧
    SCall.create 0 (jsRem ((21600 : Int) - 18000 + 86400) 86400) 18000 ∈
      scheduleCharging_v5 false false false [0, 1] 21600 18000 true true
        (fun i => decide (i = 0)) :=
  ⟨by decide, by decide,
    (reconciler_failure_isolation false false [0, 1] 21600 18000
        (fun i => decide (i = 0)) (fun _ => true)).2.2.2 (by decide) 0
      (by decide)⟩

/-- C5: for every duration that fits the charging window (positive and at
most the span), the backward start `(windowEnd - d + 86400) % 86400` of
version 5.0 (line 400; identically version 4.2 line 161) is the
mathematical residue, lies in [0, 86400), and anchors completion exactly
at the window end: start + d ≡ windowEnd (mod 86400); the duration is
passed through unchanged to the creation request of every configured
switch.  At the window 22:00–06:00 with duration 5 h (18000 s) the start
is 3600 s (01:00) and the duration stays 18000 s, in version 4.2's core
(whose in-window sanity check accepts this start) as well as in version
5.0's trace. -/
theorem scheduler_end_anchored (windowStart windowEnd : Nat) (d : Int)
    (hws : windowStart < 86400) (hwe : windowEnd < 86400)
    (hd0 : 0 < d) (hdspan : d ≤ windowSpan windowStart windowEnd) :
    jsRem ((windowEnd : Int) - d + 86400) 86400
      = ((windowEnd : Int) - d + 86400) % 86400 ∧
    0 ≤ jsRem ((windowEnd : Int) - d + 86400) 86400 ∧
    jsRem ((windowEnd : Int) - d + 86400) 86400 < 86400 ∧
    (jsRem ((windowEnd : Int) - d + 86400) 86400 + d) % 86400 = windowEnd ∧
    (∀ (sendList sendNew : Bool) (switchIds : List Nat)
        (createOk : Nat → Bool), ∀ id ∈ switchIds,
      SCall.create id (jsRem ((windowEnd : Int) - d + 86400) 86400) d ∈
        scheduleCharging_v5 false sendList sendNew switchIds windowEnd d
          true true createOk) ∧
    computeSchedule_v4 79200 21600 18000 = (3600, 18000) ∧
    SCall.create 0 3600 18000 ∈
      scheduleCharging_v5 false false false [0] 21600 18000 true true
        (fun _ => true) := by
  have hspan : windowSpan windowStart windowEnd ≤ 86400 :=
    windowSpan_le windowStart windowEnd hws hwe
  have hnn : 0 ≤ (windowEnd : Int) - d + 86400 := by omega
  have hrem : jsRem ((windowEnd : Int) - d + 86400) 86400
      = ((windowEnd : Int) - d + 86400) % 86400 :=
    jsRem_eq_emod _ _ hnn (by norm_num)
  refine ⟨hrem, ?_, ?_, ?_, ?_, by decide, by decide⟩
  · rw [hrem]; omega
  · rw [hrem]; omega
  · rw [hrem]; omega
  · exact fun sendList sendNew switchIds createOk id hid =>
      create_mem_scheduleCharging_v5 sendList sendNew switchIds windowEnd d
        createOk hd0 id hid

/-- C5 witness: the window 22:00–06:00 (span 28800 s) with duration
18000 s: the backward start plus the duration lands exactly on the window
end 21600 s (06:00). -/
theorem scheduler_end_anchored_witness :
    (79200 : Nat) < 86400 ∧ (21600 : Nat) < 86400 ∧ (0 : Int) < 18000 ∧
    (18000 : Int) ≤ windowSpan 79200 21600 ∧
    (jsRem ((21600 : Int) - 18000 + 86400) 86400 + 18000) % 86400 = 21600 :=
  ⟨by decide, by decide, by decide, by decide,
    (scheduler_end_anchored 79200 21600 18000 (by decide) (by decide)
        (by decide) (by decide)).2.2.2.1⟩

/-- A tick at a time other than the fetch time starts no cycle. -/
theorem dailyCheck_not_fetch (fetchMinute : Nat) (s : Bool) (t : Nat)
    (ht : t ≠ fetchMinute) : (dailyCheck fetchMinute s t).2 = false := by
  simp [dailyCheck, ht]

/-- From the `Idle` state, a tick at a time other than the fetch time
leaves the state `Idle`. -/
theorem dailyCheck_stays_idle (fetchMinute : Nat) (t : Nat)
    (ht : t ≠ fetchMinute) : (dailyCheck fetchMinute false t).1 = false := by
  simp [dailyCheck, ht]

/-- Over any list of ticks, the number of ticks that start a decision
cycle is at most the number of ticks at the fetch time, from any starting
state. -/
theorem runTicks_le_count (fetchMinute : Nat) (l : List Nat) :
    ∀ s : Bool, (runTicks fetchMinute s l).2 ≤ l.count fetchMinute := by
  induction l with
  | nil => intro s; simp [runTicks]
  | cons t ts ih =>
    intro s
    have ih2 := ih (dailyCheck fetchMinute s t).1
    have hstep : (runTicks fetchMinute s (t :: ts)).2 =
        (if (dailyCheck fetchMinute s t).2 then 1 else 0) +
          (runTicks fetchMinute (dailyCheck fetchMinute s t).1 ts).2 := rfl
    by_cases ht : t = fetchMinute
    · have hc : (t :: ts).count fetchMinute = ts.count fetchMinute + 1 := by
        simp [List.count_cons, ht]
      rw [hstep, hc]
      split <;> omega
    · have hc : (t :: ts).count fetchMinute = ts.count fetchMinute := by
        simp [List.count_cons, ht]
      rw [hstep, hc, dailyCheck_not_fetch fetchMinute s t ht]
      simpa using ih2

/-- Starting from `Idle`, a list of ticks containing the fetch time starts
at least one decision cycle. -/
theorem runTicks_pos (fetchMinute : Nat) (l : List Nat) :
    fetchMinute ∈ l → 1 ≤ (runTicks fetchMinute false l).2 := by
  induction l with
  | nil => intro h; cases h
  | cons t ts ih =>
    intro hmem
    have hstep : (runTicks fetchMinute false (t :: ts)).2 =
        (if (dailyCheck fetchMinute false t).2 then 1 else 0) +
          (runTicks fetchMinute (dailyCheck fetchMinute false t).1 ts).2 := rfl
    by_cases ht : t = fetchMinute
    · have hrun : (dailyCheck fetchMinute false t).2 = true := by
        simp [dailyCheck, ht]
      rw [hstep, hrun]
      simp
    · have h1 : (dailyCheck fetchMinute false t).1 = false :=
        dailyCheck_stays_idle fetchMinute t ht
      have h2 : (dailyCheck fetchMinute false t).2 = false :=
        dailyCheck_not_fetch fetchMinute false t ht
      have hm : fetchMinute ∈ ts := by
        rcases List.mem_cons.1 hmem with h | h
        · exact absurd h.symm ht
        · exact h
      rw [hstep, h2, h1]
      simpa using ih hm

/-- C3: the daily trigger (version 5.0's `dailyCheck`, lines 443–466,
driven by the per-minute production timer of line 483).  A tick at the
configured fetch time in state `Idle` starts the decision cycle and sets
`hasRunToday`; a tick at the fetch time in state `RanToday` does nothing;
the 00:01 tick resets `hasRunToday` to false and starts no cycle; every
other tick changes nothing and starts no cycle; over the 1440 per-minute
ticks of one calendar day at most one cycle is started from any carried-in
state, and exactly one when the day starts in `Idle`. -/
theorem dailyCheck_once_per_day (fetchMinute : Nat)
    (hlt : fetchMinute < 1440) (hne : fetchMinute ≠ 1) :
    dailyCheck fetchMinute false fetchMinute = (true, true) ∧
    dailyCheck fetchMinute true fetchMinute = (true, false) ∧
    (∀ s : Bool, dailyCheck fetchMinute s 1 = (false, false)) ∧
    (∀ (s : Bool) (t : Nat), t ≠ fetchMinute → t ≠ 1 →
      dailyCheck fetchMinute s t = (s, false)) ∧
    (∀ s : Bool, (runDay fetchMinute s).2 ≤ 1) ∧
    (runDay fetchMinute false).2 = 1 := by
  have hcount : (List.range 1440).count fetchMinute ≤ 1 :=
    List.nodup_iff_count_le_one.1 (List.nodup_range 1440) fetchMinute
  refine ⟨?_, ?_, ?_, ?_, ?_, ?_⟩
  · simp [dailyCheck, hne]
  · simp [dailyCheck, hne]
  · intro s
    simp [dailyCheck, Ne.symm hne]
  · intro s t ht ht1
    simp [dailyCheck, ht, ht1]
  · intro s
    exact le_trans (runTicks_le_count fetchMinute (List.range 1440) s) hcount
  · have hge := runTicks_pos fetchMinute (List.range 1440)
      (List.mem_range.2 hlt)
    have hle := le_trans
      (runTicks_le_count fetchMinute (List.range 1440) false) hcount
    unfold runDay
    omega

/-- C3 witness: at the shipped fetch time 19:00 (minute 1140 of the day), a
day of per-minute ticks starting in `Idle` runs exactly one decision
cycle, and the 00:01 tick resets the flag. -/
theorem dailyCheck_once_per_day_witness :
    (1140 : Nat) < 1440 ∧ (1140 : Nat) ≠ 1 ∧
    dailyCheck 1140 false 1140 = (true, true) ∧
    dailyCheck 1140 true 1 = (false, false) ∧
    (runDay 1140 false).2 = 1 :=
  ⟨by decide, by decide,
    (dailyCheck_once_per_day 1140 (by decide) (by decide)).1,
    (dailyCheck_once_per_day 1140 (by decide) (by decide)).2.2.1 true,
    (dailyCheck_once_per_day 1140 (by decide) (by decide)).2.2.2.2.2⟩

/-- A character of `splitJoin c esc s` comes from the escape sequence or is
a character of `s` other than `c`. -/
theorem mem_splitJoin {c : Char} {esc s : List Char} {x : Char}
    (hx : x ∈ splitJoin c esc s) : x ∈ esc ∨ (x ∈ s ∧ x ≠ c) := by
  rcases List.mem_flatMap.1 hx with ⟨a, ha, hxa⟩
  by_cases hac : a = c
  · rw [if_pos hac] at hxa
    exact Or.inl hxa
  · rw [if_neg hac] at hxa
    rcases List.mem_singleton.1 hxa with rfl
    exact Or.inr ⟨ha, hac⟩

/-- C9: whatever the notification message (newlines included), the text
that `sendTelegramNotification` embeds into the URL query string —
`urlEncode("Shelly Heater: " + message)`, version 5.0 lines 273–281 and
301–308 — contains no literal space, colon, period, comma or newline. -/
theorem telegramText_no_reserved_chars (message : List Char) (x : Char)
    (hx : x ∈ telegramText message) :
    x ≠ ' ' ∧ x ≠ ':' ∧ x ≠ '.' ∧ x ≠ ',' ∧ x ≠ '\n' := by
  simp only [telegramText, urlEncode] at hx
  rcases mem_splitJoin hx with h | ⟨hx4, hNl⟩
  · simp only [List.mem_cons, List.not_mem_nil, or_false] at h
    rcases h with rfl | rfl | rfl <;>
      exact ⟨by decide, by decide, by decide, by decide, by decide⟩
  rcases mem_splitJoin hx4 with h | ⟨hx3, hCm⟩
  · simp only [List.mem_cons, List.not_mem_nil, or_false] at h
    rcases h with rfl | rfl | rfl <;>
      exact ⟨by decide, by decide, by decide, by decide, by decide⟩
  rcases mem_splitJoin hx3 with h | ⟨hx2, hPd⟩
  · simp only [List.mem_cons, List.not_mem_nil, or_false] at h
    rcases h with rfl | rfl | rfl <;>
      exact ⟨by decide, by decide, by decide, by decide, by decide⟩
  rcases mem_splitJoin hx2 with h | ⟨hx1, hCl⟩
  · simp only [List.mem_cons, List.not_mem_nil, or_false] at h
    rcases h with rfl | rfl | rfl <;>
      exact ⟨by decide, by decide, by decide, by decide, by decide⟩
  rcases mem_splitJoin hx1 with h | ⟨hx0, hSp⟩
  · simp only [List.mem_cons, List.not_mem_nil, or_false] at h
    rcases h with rfl | rfl | rfl <;>
      exact ⟨by decide, by decide, by decide, by decide, by decide⟩
  exact ⟨hSp, hCl, hPd, hCm, hNl⟩

/-- C9 witness: for the multi-line message consisting of one newline, the
letter S occurs in the encoded text and is none of the reserved
characters. -/
theorem telegramText_no_reserved_chars_witness :
    'S' ∈ telegramText ['\n'] ∧
    ('S' ≠ ' ' ∧ 'S' ≠ ':' ∧ 'S' ≠ '.' ∧ 'S' ≠ ',' ∧ 'S' ≠ '\n') :=
  ⟨by decide, telegramText_no_reserved_chars ['\n'] 'S' (by decide)⟩

/-- C8: whenever the forecast fetch fails (nonzero error code, missing
response, or non-200 status) or its body is malformed (unparseable, or
fewer than 24 temperature samples at hour offsets 24–47), the decision
cycle does not stop: `getWeatherAndCalculateDuration` sends a failure
notification and takes the fallback path, and the cycle proceeds to run
the reconciler with the seasonal fallback duration
`Math.round(calculateFallbackDuration(month) * 3600)`. -/
theorem weather_failure_falls_back
    (startTemp slope maxH q1 q2 q3 q4 : ℚ) (month : Nat)
    (errCode : Int) (res : Option HttpRes)
    (sendList sendNew : Bool) (switchIds : List Nat) (windowEnd : Nat)
    (listOk deleteOk : Bool) (createOk : Nat → Bool)
    (hfail : errCode ≠ 0 ∨ res = none ∨ ∃ r, res = some r ∧
      (r.code ≠ 200 ∨ r.bodyTemps = none ∨ ∃ ts, r.bodyTemps = some ts ∧
        ((ts.drop 24).take 24).length < 24)) :
    weatherDecision errCode res = (DurationSource.fallback, true) ∧
    decisionCycle startTemp slope maxH q1 q2 q3 q4 month errCode res
        false sendList sendNew switchIds windowEnd listOk deleteOk createOk =
      ((DurationSource.fallback, true),
        jsRound (calculateFallbackDuration q1 q2 q3 q4 month * 3600),
        scheduleCharging_v5 false sendList sendNew switchIds windowEnd
          (jsRound (calculateFallbackDuration q1 q2 q3 q4 month * 3600))
          listOk deleteOk createOk) := by
  have hwd : weatherDecision errCode res = (DurationSource.fallback, true) := by
    by_cases he : errCode = 0
    · rcases hfail with h | h | ⟨r, hr, h⟩
      · exact absurd he h
      · subst h
        simp [weatherDecision, he]
      · subst hr
        rcases h with hcode | hbody | ⟨ts, hts, hlen⟩
        · simp [weatherDecision, he, hcode]
        · simp [weatherDecision, he, hbody]
        · have hlen2 : ts.length - 24 < 24 := by
            rw [List.length_take, List.length_drop] at hlen
            omega
          simp [weatherDecision, he, hts]
          intro _
          exact hlen2
    · simp [weatherDecision, he]
  refine ⟨hwd, ?_⟩
  simp [decisionCycle, hwd, cycleDuration]

/-- C8 witness: status 200 with a temperature series of only 30 samples
(so only 6 remain at offsets 24–47): the malformed-data condition holds and
the cycle takes the fallback path with a notification. -/
theorem weather_failure_falls_back_witness :
    (((List.replicate 30 (5 : ℚ)).drop 24).take 24).length < 24 ∧
    weatherDecision 0 (some ⟨200, some (List.replicate 30 (5 : ℚ))⟩) =
      (DurationSource.fallback, true) :=
  ⟨by simp, (weather_failure_falls_back 15 (1 / 2) 8 6 2 0 5 1 0
      (some ⟨200, some (List.replicate 30 (5 : ℚ))⟩) false false [0] 21600
      true true (fun _ => true)
      (Or.inr (Or.inr ⟨_, rfl, Or.inr (Or.inr ⟨_, rfl, by simp⟩)⟩))).1⟩

/-- C4: the claim says a failure of the schedule list or delete step
prevents any creation call.  Version 5.0's reconciler (lines 360–437)
behaves this way, but the claim also cites version 4.2 (lines 190–203),
where `Schedule.DeleteAll` is issued fire-and-forget — no callback
observes its outcome — and `Schedule.Create` is issued unconditionally in
the same loop iteration; there is no `Schedule.List` step at all.  Hence
in version 4.2 a delete failure aborts nothing and prevents no creation
attempt: the full trace below issues each switch's creation directly
after its delete, with no abort branch for any delete outcome. -/
theorem v4_delete_fire_and_forget :
    scheduleCharging_v4 false [0, 1] 79200 21600 18000 (fun _ => true) =
      [SCall.deleteAll (some 0), SCall.create 0 3600 18000,
       SCall.deleteAll (some 1), SCall.create 1 3600 18000] := by
  decide
